import Mathlib

/-!
Verification of the streaming-upload core of the vena-etl-tool repository.

Shallow embedding of:
* `src/utils/streamState.js` — the stream state machine (`StreamState.transition`);
* `src/utils/errorClassification.js` — the error classifier (`classifyError`);
* `src/utils/apiResponse.js` — the retry/abort wrapper (`retryOperation`);
* `src/utils/streamingUpload.js` — cleanup, adaptive backpressure;
* `src/utils/progressTracker.js` — progress/stall tracking;
* `src/utils/terminationHandler.js` — the process-wide termination registry.

JavaScript numbers used in the backpressure arithmetic are modelled as
rationals (`ℚ`); byte counters are naturals.  Strings are Lean `String`s and
`message.includes(...)` is modelled as substring occurrence on character
lists.
-/

namespace VenaEtl

/-- The six stream states of `STATES` in streamState.js. -/
inductive St where
  | initial
  | active
  | paused
  | aborted
  | completed
  | err
deriving DecidableEq, Repr

/-- An error value as stored by the state machine; its payload is opaque
to the machine, so a string message suffices. -/
structure Err where
  message : String
deriving DecidableEq, Repr

/-- `VALID_TRANSITIONS` from streamState.js (lines 20–27): the list of states
one may transition to from each state; terminal states map to `[]`. -/
def validTransitions : St → List St
  | .initial => [.active, .aborted, .err]
  | .active => [.paused, .completed, .aborted, .err]
  | .paused => [.active, .aborted, .err]
  | .aborted => []
  | .completed => []
  | .err => []

/-- The mutable fields of a `StreamState` instance (streamState.js): current
state, stored error, the terminal flag, and the transition log. -/
structure StreamState where
  state : St
  error : Option Err
  terminalFlag : Bool
  transitions : List (Option St × St)
deriving DecidableEq, Repr

/-- The `StreamState` constructor: state `initial`, no error, non-terminal,
with the initial state logged. -/
def StreamState.mk0 : StreamState :=
  { state := .initial, error := none, terminalFlag := false,
    transitions := [(none, .initial)] }

/-- `StreamState.transition` (streamState.js lines 82–125): reject when the
terminal flag is set; reject when the requested state is not listed in
`VALID_TRANSITIONS` for the current state; otherwise update the state, store
the error on transitions to `err`/`aborted`, recompute the terminal flag and
log the transition.  (The source's `Object.values(STATES).includes(newState)`
check cannot fail here: the inductive type `St` has exactly the six states.)
Returns the JS boolean result paired with the updated instance. -/
def StreamState.transition (s : StreamState) (newState : St) (e : Option Err) :
    Bool × StreamState :=
  if s.terminalFlag then (false, s)
  else if newState ∉ validTransitions s.state then (false, s)
  else
    (true,
      { state := newState,
        error :=
          match e with
          | some ev => if newState = .err ∨ newState = .aborted then some ev else s.error
          | none => s.error,
        terminalFlag := newState = .completed ∨ newState = .aborted ∨ newState = .err,
        transitions := s.transitions ++ [(some s.state, newState)] })

/-- Run a sequence of transition attempts, collecting each call's boolean
result (models repeated calls to `transition`). -/
def StreamState.runSeq (s : StreamState) : List (St × Option Err) → List Bool × StreamState
  | [] => ([], s)
  | (n, e) :: rest =>
    let (b, s1) := s.transition n e
    let (bs, s2) := s1.runSeq rest
    (b :: bs, s2)

/-- A state is terminal in the sense of the spec when it is
Completed, Aborted or Error. -/
def St.isTerminalState : St → Bool
  | .completed => true
  | .aborted => true
  | .err => true
  | _ => false

/-! ### Error classification (errorClassification.js) -/

/-- `ERROR_CATEGORIES` from errorClassification.js. -/
inductive Category where
  | network
  | server
  | auth
  | validation
  | filesystem
  | stream
  | timeout
  | abort
  | unknown
deriving DecidableEq, Repr

/-- `ERROR_TYPES` from errorClassification.js (those reachable from
`classifyError`). -/
inductive ErrType where
  | connection_reset
  | connection_refused
  | timeout
  | dns_lookup_failed
  | server_error
  | rate_limited
  | unauthorized
  | invalid_input
  | file_not_found
  | permission_denied
  | file_too_large
  | file_in_use
  | directory_not_found
  | is_directory
  | broken_pipe
  | user_abort
  | unknown
deriving DecidableEq, Repr

/-- A raw JS error as read by `classifyError`: its `name`, `code` (the empty
string when absent, as in `error.code || ''`), `message` (likewise), plus a
`stack` field that the classifier never reads (JS errors carry further
properties). -/
structure RawError where
  name : String
  code : String
  message : String
  stack : String
deriving DecidableEq, Repr

/-- The enhanced error produced by `createClassifiedError`: the original
name/code/message plus the classification triple and the context payload. -/
structure ClassifiedError where
  name : String
  code : String
  message : String
  errorType : ErrType
  category : Category
  recoverable : Bool
  context : List (String × String)
deriving DecidableEq, Repr

/-- JS `haystack.includes(needle)` on character lists: `true` iff `sub`
occurs as a contiguous sublist. -/
def hasSubstr (sub : List Char) : List Char → Bool
  | [] => sub.isPrefixOf ([] : List Char)
  | c :: cs => sub.isPrefixOf (c :: cs) || hasSubstr sub cs

/-- JS `s.includes(sub)`. -/
def jsIncludes (s sub : String) : Bool :=
  hasSubstr sub.toList s.toList

/-- The maximal leading run of decimal digits. -/
def takeDigits : List Char → List Char
  | [] => []
  | c :: cs => if c.isDigit then c :: takeDigits cs else []

/-- Numeric value of a digit string (as consumed by `parseInt`). -/
def digitsToNat (ds : List Char) : Nat :=
  ds.foldl (fun acc c => acc * 10 + (c.toNat - 48)) 0

/-- The regex match `message.match(/Status: (\d+)/)` followed by `parseInt`:
the first position at which the literal `Status: ` is followed by at least
one digit yields the value of the maximal digit run there. -/
def findStatus : List Char → Option Nat
  | [] => none
  | c :: cs =>
    if ("Status: ".toList).isPrefixOf (c :: cs) then
      let ds := takeDigits ((c :: cs).drop 8)
      if ds.isEmpty then findStatus cs else some (digitsToNat ds)
    else findStatus cs

/-- `classifyError` (errorClassification.js lines 94–226): the decision
chain over `error.name`, `error.code` and `error.message`, evaluated in
source order; produces the classified error via `createClassifiedError`,
with `originalCode` prepended to the context. -/
def classifyError (e : RawError) (ctx : List (String × String)) : ClassifiedError :=
  let triple : ErrType × Category × Bool :=
    if e.name = "AbortError" ∨ jsIncludes e.message "aborted" then
      (.user_abort, .abort, false)
    else if e.code = "ENOENT" then (.file_not_found, .filesystem, false)
    else if e.code = "EACCES" then (.permission_denied, .filesystem, false)
    else if e.code = "EPERM" then (.permission_denied, .filesystem, false)
    else if e.code = "EBUSY" then (.file_in_use, .filesystem, true)
    else if e.code = "EISDIR" then (.is_directory, .filesystem, false)
    else if e.code = "ENOTDIR" then (.directory_not_found, .filesystem, false)
    else if e.code = "ECONNRESET" ∨ jsIncludes e.message "connection reset" then
      (.connection_reset, .network, true)
    else if e.code = "ECONNREFUSED" ∨ jsIncludes e.message "connection refused" then
      (.connection_refused, .network, true)
    else if e.code = "ETIMEDOUT" ∨ jsIncludes e.message "timeout" then
      (.timeout, .timeout, true)
    else if e.code = "ENOTFOUND" then (.dns_lookup_failed, .network, true)
    else if e.code = "EPIPE" then (.broken_pipe, .stream, true)
    else if jsIncludes e.message "HTTP error! Status:" then
      let status := (findStatus e.message.toList).getD 0
      if status ≥ 500 then (.server_error, .server, true)
      else if status = 429 then (.rate_limited, .server, true)
      else if status = 401 then (.unauthorized, .auth, false)
      else if status = 403 then (.unauthorized, .auth, false)
      else if status = 404 then (.server_error, .server, false)
      else if status = 413 then (.file_too_large, .validation, false)
      else if status ≥ 400 then (.invalid_input, .validation, false)
      else (.unknown, .unknown, false)
    else if jsIncludes e.message "validation failed" ∨ jsIncludes e.message "invalid" then
      (.invalid_input, .validation, false)
    else (.unknown, .unknown, false)
  { name := e.name, code := e.code, message := e.message,
    errorType := triple.1, category := triple.2.1, recoverable := triple.2.2,
    context := ("originalCode", e.code) :: ctx }

/-! ### Retry / abort-aware wrapper (apiResponse.js, `retryOperation`) -/

/-- An error caught by `retryOperation`'s catch block: either a raw error or
an already-classified one (`error.category ? error : classifyError(error)`;
every category string of a classified error is non-empty, hence truthy). -/
inductive CaughtError where
  | raw (r : RawError)
  | classified (c : ClassifiedError)
deriving DecidableEq, Repr

/-- `error.category ? error : classifyError(error)` from apiResponse.js
line 88. -/
def toClassified : CaughtError → ClassifiedError
  | .raw r => classifyError r []
  | .classified c => c

/-- Outcome of one invocation of the wrapped operation. -/
inductive OpOutcome (α : Type) where
  | ok (a : α)
  | fail (e : CaughtError)

/-- Observations of the cancel signal made by `retryOperation`:
`abortedBefore a` is `signal.aborted` as read at the top of the iteration
for attempt `a`; `abortedDuringWait a` is whether the signal fires before
the backoff wait after failed attempt `a` completes (including the case
that it is already aborted when the wait starts). -/
structure Signal where
  abortedBefore : Nat → Bool
  abortedDuringWait : Nat → Bool

/-- A signal that never fires. -/
def neverAbortedSignal : Signal :=
  { abortedBefore := fun _ => false, abortedDuringWait := fun _ => false }

/-- A signal that is already aborted at every observation point. -/
def alwaysAbortedSignal : Signal :=
  { abortedBefore := fun _ => true, abortedDuringWait := fun _ => true }

/-- A signal that is clear at attempt start but fires during every backoff
wait. -/
def abortDuringWaitSignal : Signal :=
  { abortedBefore := fun _ => false, abortedDuringWait := fun _ => true }

/-- `new DOMException('The operation was aborted', 'AbortError')` thrown by
the fast path when the signal is already aborted. -/
def abortCheckError : RawError :=
  { name := "AbortError", code := "", message := "The operation was aborted", stack := "" }

/-- `new DOMException('Retry aborted', 'AbortError')` produced when the
signal fires during the backoff wait. -/
def retryAbortError : RawError :=
  { name := "AbortError", code := "", message := "Retry aborted", stack := "" }

/-- The loop body of `retryOperation` (apiResponse.js lines 65–143) from
attempt number `attempt` on, modelling the operation as a function from the
attempt number to its outcome.  Returns the overall result (the JS return
value or the thrown classified error) paired with the number of times the
operation was invoked from this point on.  Mirrors the source: the
already-aborted fast path throws before invoking the operation (the thrown
`DOMException` is classified by the catch block and rethrown); an
`AbortError` name or `abort` category is rethrown without retry; with no
attempts remaining or a non-recoverable error the classified error is
rethrown; the backoff wait races the cancel signal; otherwise the attempt
counter increments and the backoff doubles. -/
def retryFrom {α : Type} (op : Nat → OpOutcome α) (pred : ClassifiedError → Bool)
    (sig : Signal) (retries : Nat) (attempt : Nat) (backoff : Nat) :
    Except ClassifiedError α × Nat :=
  if sig.abortedBefore attempt then
    (.error (classifyError abortCheckError []), 0)
  else
    match op attempt with
    | .ok a => (.ok a, 1)
    | .fail caught =>
      let ce := toClassified caught
      if ce.name = "AbortError" ∨ ce.category = .abort then (.error ce, 1)
      else if h : (retries : Int) - attempt + 1 ≤ 0 ∨ pred ce = false then (.error ce, 1)
      else if sig.abortedDuringWait attempt then
        (.error (classifyError retryAbortError [("operation", "retry")]), 1)
      else
        let r := retryFrom op pred sig retries (attempt + 1) (backoff * 2)
        (r.1, r.2 + 1)
termination_by retries + 2 - attempt
decreasing_by
  push_neg at h
  omega

/-- `retryOperation(operation, retries, backoff, shouldRetry, signal)`:
the loop starts at `currentAttempt = 1` with the initial backoff. -/
def retryOperation {α : Type} (op : Nat → OpOutcome α) (pred : ClassifiedError → Bool)
    (sig : Signal) (retries : Nat) (backoff : Nat) : Except ClassifiedError α × Nat :=
  retryFrom op pred sig retries 1 backoff

/-! ### Adaptive backpressure (streamingUpload.js lines 270–322) -/

/-- JS `x || d` on numbers: `d` when `x` is `0` (falsy), else `x`. -/
def jsOr (x d : ℚ) : ℚ := if x = 0 then d else x

/-- JS `Math.round`: round half toward positive infinity. -/
def jsRound (x : ℚ) : ℤ := ⌊x + 1 / 2⌋

/-- The configuration values read by the adaptive-backpressure branch
(config.js defaults: memoryThreshold 100MB, streamBackoff 2000ms,
adaptiveThresholdFactor 0.7, backoff factor min 0.5 / max 2.0). -/
structure BpConfig where
  memoryThreshold : ℚ
  streamBackoff : ℚ
  adaptiveThresholdFactor : ℚ
  adaptiveBackoffFactorMin : ℚ
  adaptiveBackoffFactorMax : ℚ

/-- `severityFactor = Math.max(min, Math.min(max, rateThreshold / (uploadRate || 1)))`
from streamingUpload.js lines 306–309. -/
def severityFactor (cfg : BpConfig) (rateThreshold uploadRate : ℚ) : ℚ :=
  max cfg.adaptiveBackoffFactorMin
    (min cfg.adaptiveBackoffFactorMax (rateThreshold / jsOr uploadRate 1))

/-- The adaptive-backpressure decision of the `data` handler: given the
byte counter, the instantaneous rate and the rolling-average rate, pause
iff `bytesUploaded > memoryThreshold && uploadRate < rateThreshold`, in
which case the severity factor and the rounded backoff delay
`Math.round(streamBackoff * severityFactor)` are computed. -/
def adaptiveDecision (cfg : BpConfig) (bytesUploaded uploadRate avgUploadRate : ℚ) :
    Option (ℚ × ℤ) :=
  let rateThreshold := avgUploadRate * cfg.adaptiveThresholdFactor
  if bytesUploaded > cfg.memoryThreshold ∧ uploadRate < rateThreshold then
    let sf := severityFactor cfg rateThreshold uploadRate
    some (sf, jsRound (cfg.streamBackoff * sf))
  else none

/-- Modelled from the spec: the severity-factor formula as the spec words
it — `clamp(threshold / max(instantaneousRate, 1), 0.5, 2.0)` — for
comparison with the source's `severityFactor`. -/
def specSeverityFactor (threshold rate : ℚ) : ℚ :=
  max (1 / 2) (min 2 (threshold / max rate 1))

/-- The `setTimeout` callback scheduled on pause (streamingUpload.js lines
315–321): resume only if the machine is still `paused`; returns the new
machine state and whether the resume fired. -/
def resumeIfPaused (s : StreamState) : StreamState × Bool :=
  if s.state = .paused then ((s.transition .active none).2, true) else (s, false)

/-! ### Progress tracker (progressTracker.js) -/

/-- The fields of `ProgressTracker` read and written by the per-interval
tick and by `update` (stall detection and percentage computation). -/
structure Tracker where
  bytesUploaded : Nat
  lastBytesUploaded : Nat
  stallCounter : Nat
  stallThreshold : Nat
  stallDetectionEnabled : Bool
  progressInterval : ℚ
  totalBytes : Nat
deriving DecidableEq, Repr

/-- The payload passed to the stall callback (progressTracker.js lines
90–96); `stallTime` is `stallCounter * progressInterval / 1000`. -/
structure StallEvent where
  stallTime : ℚ
  bytesUploaded : Nat
  totalBytes : Nat
deriving DecidableEq, Repr

/-- `ProgressTracker.init`: `totalBytes` is the stat size on success and
`0` when the size lookup fails. -/
def initTotalBytes : Option Nat → Nat
  | some n => n
  | none => 0

/-- A `ProgressTracker` as just constructed and initialized: zero byte
counters, zero stall counter, `totalBytes` from the (optional) stat. -/
def Tracker.mk0 (statResult : Option Nat) (progressInterval : ℚ) (stallThreshold : Nat) :
    Tracker :=
  { bytesUploaded := 0, lastBytesUploaded := 0, stallCounter := 0,
    stallThreshold := stallThreshold, stallDetectionEnabled := true,
    progressInterval := progressInterval, totalBytes := initTotalBytes statResult }

/-- `ProgressTracker.update(bytesUploaded)` (the history fields are not
read by stall detection or percentage). -/
def Tracker.update (t : Tracker) (b : Nat) : Tracker :=
  { t with bytesUploaded := b }

/-- The stall-detection part of one progress-interval tick
(progressTracker.js lines 84–103, with a stall callback installed): if
`bytesUploaded` is unchanged the counter increments and, once it reaches
the threshold, the stall callback fires; otherwise the counter resets to
`0` and `lastBytesUploaded` is refreshed. -/
def Tracker.tick (t : Tracker) : Tracker × Option StallEvent :=
  if t.stallDetectionEnabled then
    if t.bytesUploaded = t.lastBytesUploaded then
      let t1 := { t with stallCounter := t.stallCounter + 1 }
      if t1.stallCounter ≥ t1.stallThreshold then
        (t1, some { stallTime := t1.stallCounter * t1.progressInterval / 1000,
                    bytesUploaded := t1.bytesUploaded, totalBytes := t1.totalBytes })
      else (t1, none)
    else ({ t with stallCounter := 0, lastBytesUploaded := t.bytesUploaded }, none)
  else (t, none)

/-- The reported progress percentage. -/
inductive Percentage where
  | pct (z : ℤ)
  | unknownPct
deriving DecidableEq, Repr

/-- `this.totalBytes ? Math.min(100, Math.round((bytesUploaded / totalBytes) * 100)) : 'unknown'`
(progressTracker.js lines 76–78): `totalBytes = 0` is falsy, hence
`'unknown'`. -/
def Tracker.percentage (t : Tracker) : Percentage :=
  if t.totalBytes ≠ 0 then
    .pct (min 100 (jsRound ((t.bytesUploaded : ℚ) / (t.totalBytes : ℚ) * 100)))
  else .unknownPct

/-! ### Termination registry (terminationHandler.js) -/

/-- A cancel handle stored in the registry: whether `controller.abort` is a
function, and how often it has been invoked. -/
structure Controller where
  hasAbortFn : Bool
  abortCalls : Nat
deriving DecidableEq, Repr

/-- The module-level state of terminationHandler.js: the `activeUploads`
map (association list with unique keys) and the `isShuttingDown` flag. -/
structure Registry where
  activeUploads : List (String × Controller)
  isShuttingDown : Bool
deriving DecidableEq, Repr

/-- JS `map.has(k)`. -/
def mapHas (m : List (String × Controller)) (k : String) : Bool :=
  m.any (fun p => p.1 == k)

/-- JS `map.set(k, v)`: replace the entry for `k` when present, else
append. -/
def mapSet (m : List (String × Controller)) (k : String) (v : Controller) :
    List (String × Controller) :=
  if mapHas m k then m.map (fun p => if p.1 == k then (k, v) else p)
  else m ++ [(k, v)]

/-- `registerUpload(uploadId, controller)` (terminationHandler.js lines
138–164): during shutdown, abort the controller (when `controller.abort`
is a function) and return `false` without touching the map; otherwise make
the id unique by appending a timestamp when already present, store the
controller and return `true`.  Returns the new registry, the JS return
value, and the controller (with its abort-invocation count). -/
def registerUpload (r : Registry) (uploadId : String) (c : Controller) (now : String) :
    Registry × Bool × Controller :=
  if r.isShuttingDown then
    (r, false, if c.hasAbortFn then { c with abortCalls := c.abortCalls + 1 } else c)
  else
    let id1 := if mapHas r.activeUploads uploadId then uploadId ++ "-" ++ now else uploadId
    ({ r with activeUploads := mapSet r.activeUploads id1 c }, true, c)

/-- `unregisterUpload(uploadId)` (terminationHandler.js lines 171–182). -/
def unregisterUpload (r : Registry) (uploadId : String) : Registry × Bool :=
  if mapHas r.activeUploads uploadId then
    ({ r with activeUploads := r.activeUploads.filter (fun p => !(p.1 == uploadId)) }, true)
  else (r, false)

/-- `handleTermination(reason)` (terminationHandler.js lines 63–131): a
no-op when already shutting down; otherwise set `isShuttingDown`, abort
every registered controller over a snapshot of the entries (a controller
without a callable `abort` throws, and the exception is caught), and clear
the map.  The second component is the snapshot of controllers after their
`abort` calls. -/
def handleTermination (r : Registry) : Registry × List Controller :=
  if r.isShuttingDown then (r, [])
  else
    let aborted := r.activeUploads.map fun p =>
      if p.2.hasAbortFn then { p.2 with abortCalls := p.2.abortCalls + 1 } else p.2
    ({ activeUploads := [], isShuttingDown := true }, aborted)

/-! ### Upload lifecycle and cleanup (streamingUpload.js) -/

/-- The per-attempt runtime of `streamingUpload`: the state machine plus
counters for each cleanup side effect and callback. -/
structure UploadRt where
  sm : StreamState
  streamDestroyed : Nat
  trackerStopped : Nat
  monitorStopped : Nat
  controllerCleanup : Nat
  unregistered : Nat
  onErrorCalls : Nat
  onAbortCalls : Nat
deriving DecidableEq, Repr

/-- `cleanupResources` (streamingUpload.js lines 166–198): its entire body
— destroying the stream, the completion transition, `tracker.stop()`, the
memory-monitor stop and the controller cleanup — runs only when the state
machine is **not** already in a terminal state; otherwise it logs and does
nothing. -/
def cleanupResources (u : UploadRt) : UploadRt :=
  if !u.sm.terminalFlag then
    let sm1 :=
      if u.sm.state = .active ∨ u.sm.state = .paused then (u.sm.transition .completed none).2
      else u.sm
    { u with
      sm := sm1,
      streamDestroyed := u.streamDestroyed + 1,
      trackerStopped := u.trackerStopped + 1,
      monitorStopped := u.monitorStopped + 1,
      controllerCleanup := u.controllerCleanup + 1 }
  else u

/-- The terminal events that can arrive for one upload attempt; the
deadline timeout fires `controller.abort` (uploadController.js lines
22–32), which raises the same signal-abort event as an external abort. -/
inductive UploadEvent where
  | streamError (e : Err)
  | externalAbort (reason : Err)
  | deadlineTimeout
  | normalEnd

/-- The event handlers wired in `streamingUpload` (lines 201–240 and
346–351): the stream-error handler (guarded by `!is(ERROR) && !is(ABORTED)`)
classifies, transitions to `err`, invokes `onError` and calls
`cleanupResources`; the signal-abort handler (guarded by the terminal flag)
transitions to `aborted`, invokes `onAbort` and calls `cleanupResources`;
the `end` handler transitions to `completed` when not already terminal. -/
def stepEvent (u : UploadRt) : UploadEvent → UploadRt
  | .streamError e =>
    if !(u.sm.state = .err) && !(u.sm.state = .aborted) then
      cleanupResources
        { u with
          sm := (u.sm.transition .err (some e)).2,
          onErrorCalls := u.onErrorCalls + 1 }
    else u
  | .externalAbort reason =>
    if !u.sm.terminalFlag then
      cleanupResources
        { u with
          sm := (u.sm.transition .aborted (some reason)).2,
          onAbortCalls := u.onAbortCalls + 1 }
    else u
  | .deadlineTimeout =>
    if !u.sm.terminalFlag then
      cleanupResources
        { u with
          sm := (u.sm.transition .aborted (some { message := "Upload timed out" })).2,
          onAbortCalls := u.onAbortCalls + 1 }
    else u
  | .normalEnd =>
    if !u.sm.terminalFlag then { u with sm := (u.sm.transition .completed none).2 }
    else u

/-- The `finally` block (streamingUpload.js lines 456–462): always call
`cleanupResources`, then `unregisterUpload`. -/
def finallyStep (u : UploadRt) : UploadRt :=
  let u1 := cleanupResources u
  { u1 with unregistered := u1.unregistered + 1 }

/-- The runtime right after `streamStateManager.activate()` (line 243):
machine active, no side effect has occurred yet. -/
def initUploadRt : UploadRt :=
  { sm := (StreamState.mk0.transition .active none).2,
    streamDestroyed := 0, trackerStopped := 0, monitorStopped := 0,
    controllerCleanup := 0, unregistered := 0, onErrorCalls := 0, onAbortCalls := 0 }

/-- One upload attempt: the given terminal events arrive in order, then the
`finally` block runs. -/
def runUpload (evs : List UploadEvent) : UploadRt :=
  finallyStep (evs.foldl stepEvent initUploadRt)

/-- The guard stating that none of the classifier rules preceding the
HTTP-status branch of `classifyError` matches: each conjunct is the
negation of one of the twelve earlier rule conditions, in source order. -/
def NoEarlierRuleMatches (e : RawError) : Prop :=
  ¬(e.name = "AbortError" ∨ jsIncludes e.message "aborted" = true) ∧
  ¬(e.code = "ENOENT") ∧
  ¬(e.code = "EACCES") ∧
  ¬(e.code = "EPERM") ∧
  ¬(e.code = "EBUSY") ∧
  ¬(e.code = "EISDIR") ∧
  ¬(e.code = "ENOTDIR") ∧
  ¬(e.code = "ECONNRESET" ∨ jsIncludes e.message "connection reset" = true) ∧
  ¬(e.code = "ECONNREFUSED" ∨ jsIncludes e.message "connection refused" = true) ∧
  ¬(e.code = "ETIMEDOUT" ∨ jsIncludes e.message "timeout" = true) ∧
  ¬(e.code = "ENOTFOUND") ∧
  ¬(e.code = "EPIPE")

/-- The config.js defaults of the adaptive-backpressure settings. -/
def defaultBpConfig : BpConfig :=
  { memoryThreshold := 104857600, streamBackoff := 2000,
    adaptiveThresholdFactor := 7 / 10,
    adaptiveBackoffFactorMin := 1 / 2, adaptiveBackoffFactorMax := 2 }

/-! ## Theorems -/

theorem transition_invalid (s : StreamState) (n : St) (e : Option Err)
    (h : n ∉ validTransitions s.state) : s.transition n e = (false, s) := by
  unfold StreamState.transition
  split
  · rfl
  · simp [h]

theorem terminal_validTransitions_eq_nil (st : St) (h : st.isTerminalState = true) :
    validTransitions st = [] := by
  cases st <;> simp_all [St.isTerminalState, validTransitions]

theorem transition_from_terminal (s : StreamState) (n : St) (e : Option Err)
    (h : s.state.isTerminalState = true) : s.transition n e = (false, s) := by
  apply transition_invalid
  rw [terminal_validTransitions_eq_nil s.state h]
  simp

/-- C1: once the state machine is in Completed, Aborted or Error, every
further transition call — over any sequence of attempts — returns `false`
and leaves the instance unchanged; and any single transition call whose
(current state, requested state) pair is outside `VALID_TRANSITIONS`
returns `false` and leaves the instance unchanged. -/
theorem c1_state_machine_validity :
    (∀ (s : StreamState) (seq : List (St × Option Err)),
        s.state.isTerminalState = true →
        s.runSeq seq = (List.replicate seq.length false, s)) ∧
    (∀ (s : StreamState) (n : St) (e : Option Err),
        n ∉ validTransitions s.state → s.transition n e = (false, s)) := by
  constructor
  · intro s seq h
    induction seq with
    | nil => rfl
    | cons p rest ih =>
      obtain ⟨n, e⟩ := p
      simp [StreamState.runSeq, transition_from_terminal s n e h, ih, List.replicate_succ]
  · exact transition_invalid

/-- Witness for C1: a completed instance rejects a two-step sequence
unchanged, and the fresh instance rejects Initial → Paused. -/
theorem c1_state_machine_validity_witness :
    StreamState.runSeq
        { state := .completed, error := none, terminalFlag := true, transitions := [] }
        [(.active, none), (.paused, none)] =
      ([false, false],
        { state := .completed, error := none, terminalFlag := true, transitions := [] }) ∧
    StreamState.mk0.transition .paused none = (false, StreamState.mk0) := by
  constructor
  · exact c1_state_machine_validity.1 _ _ (by decide)
  · exact c1_state_machine_validity.2 _ _ _ (by decide)

/-- C2 fails on the code: when the stream's `end` event arrives first
(normal end), the `end` handler drives the machine to Completed, and from
then on `cleanupResources` — including the one in the `finally` block —
skips its entire body because the machine is already terminal.  The
progress/stall timer is therefore stopped zero times, not exactly once,
and keeps firing after the terminal state; the stream is destroyed zero
times as well.  Only the registry removal in `finally` happens exactly
once. -/
theorem c2_cleanup_skipped_after_normal_end :
    (runUpload [.normalEnd]).sm.state = .completed ∧
    (runUpload [.normalEnd]).trackerStopped = 0 ∧
    (runUpload [.normalEnd]).streamDestroyed = 0 ∧
    (runUpload [.normalEnd]).unregistered = 1 := by
  decide

/-- C6: `classifyError` is deterministic in the fields it reads — two raw
errors agreeing on `name`, `code` and `message` (their other properties,
here `stack`, may differ) classify, under the same additional context, to
identical `errorType`, `category` and `recoverable`. -/
theorem c6_classifier_deterministic (e1 e2 : RawError) (ctx : List (String × String))
    (h1 : e1.name = e2.name) (h2 : e1.code = e2.code) (h3 : e1.message = e2.message) :
    (classifyError e1 ctx).errorType = (classifyError e2 ctx).errorType ∧
    (classifyError e1 ctx).category = (classifyError e2 ctx).category ∧
    (classifyError e1 ctx).recoverable = (classifyError e2 ctx).recoverable := by
  obtain ⟨n1, c1, m1, s1⟩ := e1
  obtain ⟨n2, c2, m2, s2⟩ := e2
  simp only at h1 h2 h3
  subst h1
  subst h2
  subst h3
  exact ⟨rfl, rfl, rfl⟩

/-- Witness for C6: two `ECONNRESET` errors differing only in their stack
classify identically. -/
theorem c6_classifier_deterministic_witness :
    (classifyError (RawError.mk "Error" "ECONNRESET" "read ECONNRESET" "at readSocket")
        []).errorType =
      (classifyError (RawError.mk "Error" "ECONNRESET" "read ECONNRESET" "at writeSocket")
        []).errorType ∧
    (classifyError (RawError.mk "Error" "ECONNRESET" "read ECONNRESET" "at readSocket")
        []).category =
      (classifyError (RawError.mk "Error" "ECONNRESET" "read ECONNRESET" "at writeSocket")
        []).category ∧
    (classifyError (RawError.mk "Error" "ECONNRESET" "read ECONNRESET" "at readSocket")
        []).recoverable =
      (classifyError (RawError.mk "Error" "ECONNRESET" "read ECONNRESET" "at writeSocket")
        []).recoverable :=
  c6_classifier_deterministic _ _ _ rfl rfl rfl

/-- C5 fails on the code at status 404: `classifyError` has an explicit
404 branch (errorClassification.js lines 201–205) producing errorType
`server_error`, category `server` — not `validation` as the claim's
"every other 4xx (including 404)" requires. -/
theorem c5_http_404_counterexample :
    (classifyError (RawError.mk "Error" "" "HTTP error! Status: 404, Details: Not Found" "")
        []).category = Category.server ∧
    (classifyError (RawError.mk "Error" "" "HTTP error! Status: 404, Details: Not Found" "")
        []).category ≠ Category.validation := by
  decide

/-- C5 amended: for a raw error that reaches the HTTP-status branch (no
earlier classifier rule matches) with embedded status `st`: `st ≥ 500` →
server/recoverable; 429 → rate_limited/server/recoverable; 401 and 403 →
auth/non-recoverable; 413 → file_too_large/validation/non-recoverable;
404 → server_error/server/non-recoverable; every remaining 4xx →
validation/non-recoverable. -/
theorem c5_http_status_classification (e : RawError) (ctx : List (String × String))
    (st : Nat) (hpre : NoEarlierRuleMatches e)
    (hhttp : jsIncludes e.message "HTTP error! Status:" = true)
    (hst : findStatus e.message.toList = some st) :
    (st ≥ 500 →
      (classifyError e ctx).category = .server ∧ (classifyError e ctx).recoverable = true) ∧
    (st = 429 →
      (classifyError e ctx).errorType = .rate_limited ∧
      (classifyError e ctx).category = .server ∧ (classifyError e ctx).recoverable = true) ∧
    (st = 401 ∨ st = 403 →
      (classifyError e ctx).category = .auth ∧ (classifyError e ctx).recoverable = false) ∧
    (st = 413 →
      (classifyError e ctx).errorType = .file_too_large ∧
      (classifyError e ctx).category = .validation ∧
      (classifyError e ctx).recoverable = false) ∧
    (st = 404 →
      (classifyError e ctx).errorType = .server_error ∧
      (classifyError e ctx).category = .server ∧ (classifyError e ctx).recoverable = false) ∧
    (st ≥ 400 ∧ st < 500 ∧ st ≠ 429 ∧ st ≠ 401 ∧ st ≠ 403 ∧ st ≠ 413 ∧ st ≠ 404 →
      (classifyError e ctx).category = .validation ∧
      (classifyError e ctx).recoverable = false) := by
  obtain ⟨h1, h2, h3, h4, h5, h6, h7, h8, h9, h10, h11, h12⟩ := hpre
  simp only [classifyError, if_neg h1, if_neg h2, if_neg h3, if_neg h4, if_neg h5, if_neg h6,
    if_neg h7, if_neg h8, if_neg h9, if_neg h10, if_neg h11, if_neg h12, if_pos hhttp, hst,
    Option.getD_some]
  refine ⟨?_, ?_, ?_, ?_, ?_, ?_⟩
  · intro hge
    rw [if_pos hge]
    exact ⟨rfl, rfl⟩
  · intro heq
    subst heq
    decide
  · rintro (heq | heq) <;> subst heq <;> decide
  · intro heq
    subst heq
    decide
  · intro heq
    subst heq
    decide
  · rintro ⟨ha, hb, hc, hd, he2, hf, hg⟩
    rw [if_neg (show ¬(st ≥ 500) from by omega), if_neg hc, if_neg hd, if_neg he2,
      if_neg hg, if_neg hf, if_pos ha]
    exact ⟨rfl, rfl⟩

/-- Witness for C5 (amended): a 418 response classifies as
validation/non-recoverable. -/
theorem c5_http_status_classification_witness :
    ((418 : Nat) ≥ 400 ∧ (418 : Nat) < 500 ∧ (418 : Nat) ≠ 429 ∧ (418 : Nat) ≠ 401 ∧
      (418 : Nat) ≠ 403 ∧ (418 : Nat) ≠ 413 ∧ (418 : Nat) ≠ 404) ∧
    (classifyError (RawError.mk "Error" "" "HTTP error! Status: 418, Details: teapot" "")
      []).category = .validation ∧
    (classifyError (RawError.mk "Error" "" "HTTP error! Status: 418, Details: teapot" "")
      []).recoverable = false := by
  refine ⟨by decide, ?_⟩
  exact (c5_http_status_classification
      (RawError.mk "Error" "" "HTTP error! Status: 418, Details: teapot" "") [] 418
      (by unfold NoEarlierRuleMatches; decide) (by decide) (by decide)).2.2.2.2.2 (by decide)

theorem retryFrom_count_le {α : Type} (op : Nat → OpOutcome α) (pred : ClassifiedError → Bool)
    (sig : Signal) (retries : Nat) :
    ∀ (n attempt backoff : Nat), retries + 2 - attempt ≤ n → attempt ≤ retries + 1 →
      (retryFrom op pred sig retries attempt backoff).2 ≤ retries + 2 - attempt := by
  intro n
  induction n with
  | zero =>
    intro attempt backoff h0 hle
    omega
  | succ n ih =>
    intro attempt backoff hn hle
    rw [retryFrom.eq_def]
    cases hb : sig.abortedBefore attempt with
    | true => simp
    | false =>
      cases hop : op attempt with
      | ok a =>
        simp
        omega
      | fail caught =>
        by_cases hab : (toClassified caught).name = "AbortError" ∨
            (toClassified caught).category = Category.abort
        · simp [hab]
          omega
        · by_cases hrem : (retries : Int) - attempt + 1 ≤ 0 ∨ pred (toClassified caught) = false
          · simp [hab, hrem]
            omega
          · by_cases hw : sig.abortedDuringWait attempt = true
            · simp [hab, hrem, hw]
              omega
            · have hatt : attempt ≤ retries := by
                rcases not_or.mp hrem with ⟨h1, _⟩
                omega
              have hrec := ih (attempt + 1) (backoff * 2) (by omega) (by omega)
              simp [hab, hrem, hw]
              omega

/-- C3: `retryOperation` invokes the operation at most `retries + 1` times
for every operation behaviour, retry predicate and signal; and after a
failure whose classified error has category `abort` or for which the retry
predicate returns `false`, the operation is never re-invoked — the
classified error is thrown with exactly that one invocation. -/
theorem c3_retry_termination :
    (∀ (α : Type) (op : Nat → OpOutcome α) (pred : ClassifiedError → Bool) (sig : Signal)
        (retries backoff : Nat),
        (retryOperation op pred sig retries backoff).2 ≤ retries + 1) ∧
    (∀ (α : Type) (op : Nat → OpOutcome α) (pred : ClassifiedError → Bool) (sig : Signal)
        (retries attempt backoff : Nat) (caught : CaughtError),
        sig.abortedBefore attempt = false →
        op attempt = OpOutcome.fail caught →
        ((toClassified caught).category = Category.abort ∨ pred (toClassified caught) = false) →
        retryFrom op pred sig retries attempt backoff =
          (Except.error (toClassified caught), 1)) := by
  constructor
  · intro α op pred sig retries backoff
    have h := retryFrom_count_le op pred sig retries (retries + 1) 1 backoff
      (by omega) (by omega)
    unfold retryOperation
    omega
  · intro α op pred sig retries attempt backoff caught h1 h2 h3
    rw [retryFrom.eq_def]
    by_cases hab : (toClassified caught).name = "AbortError" ∨
        (toClassified caught).category = Category.abort
    · simp [h1, h2, hab]
    · have hpred : pred (toClassified caught) = false := by
        rcases h3 with hcat | hp
        · exact absurd (Or.inr hcat) hab
        · exact hp
      simp [h1, h2, hab, hpred]

/-- Witness for C3: a wrapped operation that always fails with `ENOENT`
(classified non-recoverable) under the recoverability predicate is invoked
exactly once with retries 3, and the call bound holds. -/
theorem c3_retry_termination_witness :
    (retryOperation
        (fun _ => OpOutcome.fail (α := Unit)
          (CaughtError.raw (RawError.mk "Error" "ENOENT" "no such file" "")))
        (fun c => c.recoverable) neverAbortedSignal 3 300).2 ≤ 4 ∧
    retryFrom
        (fun _ => OpOutcome.fail (α := Unit)
          (CaughtError.raw (RawError.mk "Error" "ENOENT" "no such file" "")))
        (fun c => c.recoverable) neverAbortedSignal 3 1 300 =
      (Except.error
        (toClassified (CaughtError.raw (RawError.mk "Error" "ENOENT" "no such file" ""))), 1) := by
  constructor
  · exact c3_retry_termination.1 Unit _ _ neverAbortedSignal 3 300
  · exact c3_retry_termination.2 Unit _ _ neverAbortedSignal 3 1 300 _ rfl rfl
      (Or.inr (by decide))

/-- C4: if the cancel signal is already triggered when an attempt would
start, `retryOperation` fails with an Abort-classified error without
invoking the operation (zero invocations from that point); and if the
signal fires during the backoff wait after a recoverable failure with
retries remaining, the loop ends immediately with an Abort-classified
error after only that one invocation. -/
theorem c4_cancel_signal_abort :
    (∀ (α : Type) (op : Nat → OpOutcome α) (pred : ClassifiedError → Bool) (sig : Signal)
        (retries attempt backoff : Nat),
        sig.abortedBefore attempt = true →
        retryFrom op pred sig retries attempt backoff =
          (Except.error (classifyError abortCheckError []), 0) ∧
        (classifyError abortCheckError []).category = Category.abort) ∧
    (∀ (α : Type) (op : Nat → OpOutcome α) (pred : ClassifiedError → Bool) (sig : Signal)
        (retries attempt backoff : Nat) (caught : CaughtError),
        sig.abortedBefore attempt = false →
        op attempt = OpOutcome.fail caught →
        ¬((toClassified caught).name = "AbortError" ∨
          (toClassified caught).category = Category.abort) →
        ¬((retries : Int) - attempt + 1 ≤ 0 ∨ pred (toClassified caught) = false) →
        sig.abortedDuringWait attempt = true →
        retryFrom op pred sig retries attempt backoff =
          (Except.error (classifyError retryAbortError [("operation", "retry")]), 1) ∧
        (classifyError retryAbortError [("operation", "retry")]).category = Category.abort) := by
  constructor
  · intro α op pred sig retries attempt backoff h
    constructor
    · rw [retryFrom.eq_def]
      simp [h]
    · decide
  · intro α op pred sig retries attempt backoff caught h1 h2 hab hrem hw
    constructor
    · rw [retryFrom.eq_def]
      simp [h1, h2, hab, hrem, hw]
    · decide

/-- Witness for C4: an already-aborted signal yields zero invocations; a
signal firing during the wait after a recoverable `ECONNRESET` failure
ends the loop after one invocation. -/
theorem c4_cancel_signal_abort_witness :
    (retryFrom (fun _ => OpOutcome.ok ()) (fun c => c.recoverable) alwaysAbortedSignal
        3 1 300 =
      (Except.error (classifyError abortCheckError []), 0)) ∧
    (retryFrom
        (fun _ => OpOutcome.fail (α := Unit)
          (CaughtError.raw (RawError.mk "Error" "ECONNRESET" "read ECONNRESET" "")))
        (fun c => c.recoverable) abortDuringWaitSignal 3 1 300 =
      (Except.error (classifyError retryAbortError [("operation", "retry")]), 1)) := by
  constructor
  · exact (c4_cancel_signal_abort.1 Unit _ _ alwaysAbortedSignal 3 1 300 rfl).1
  · exact (c4_cancel_signal_abort.2 Unit _ _ abortDuringWaitSignal 3 1 300 _ rfl rfl
      (by decide) (by decide) rfl).1

/-- C7 fails on the code: the source computes the severity divisor as
`uploadRate || 1` (streamingUpload.js line 308), which is `uploadRate`
whenever the rate is non-zero — not `max(uploadRate, 1)` as the claim
states.  With default factors, threshold `3/5` (average rate `6/7` times
`0.7`) and instantaneous rate `1/2`, the pause branch fires and computes
severity `6/5 = (3/5)/(1/2)` clamped, while the claim's formula gives
`3/5 = clamp((3/5)/max(1/2,1))`. -/
theorem c7_severity_formula_counterexample :
    adaptiveDecision defaultBpConfig 104857601 (1 / 2) (6 / 7) = some (6 / 5, 2400) ∧
    specSeverityFactor ((6 / 7) * (7 / 10)) (1 / 2) = 3 / 5 ∧
    (6 / 5 : ℚ) ≠ 3 / 5 := by
  refine ⟨?_, ?_, by norm_num⟩
  · norm_num [adaptiveDecision, severityFactor, jsOr, jsRound, defaultBpConfig,
      max_def, min_def]
  · norm_num [specSeverityFactor, max_def, min_def]

/-- C7 amended: whenever the adaptive controller pauses, the severity
factor equals `clamp(threshold / (rate ≠ 0 ? rate : 1), 0.5, 2.0)` (for
the default factor bounds), hence lies in `[0.5, 2.0]`; the resume is
scheduled after `round(baseBackoff * severityFactor)` milliseconds; and
the scheduled resume fires only if the machine is still Paused. -/
theorem c7_adaptive_backpressure (cfg : BpConfig)
    (hmin : cfg.adaptiveBackoffFactorMin = 1 / 2) (hmax : cfg.adaptiveBackoffFactorMax = 2)
    (bytesUploaded uploadRate avgUploadRate : ℚ) (sf : ℚ) (delay : ℤ)
    (h : adaptiveDecision cfg bytesUploaded uploadRate avgUploadRate = some (sf, delay)) :
    ((1 : ℚ) / 2 ≤ sf ∧ sf ≤ 2) ∧
    sf = max (1 / 2) (min 2 ((avgUploadRate * cfg.adaptiveThresholdFactor) /
        (if uploadRate = 0 then 1 else uploadRate))) ∧
    delay = jsRound (cfg.streamBackoff * sf) ∧
    (∀ s : StreamState, s.state ≠ .paused → resumeIfPaused s = (s, false)) := by
  simp only [adaptiveDecision] at h
  by_cases hc : bytesUploaded > cfg.memoryThreshold ∧
      uploadRate < avgUploadRate * cfg.adaptiveThresholdFactor
  · rw [if_pos hc] at h
    simp only [Option.some.injEq, Prod.mk.injEq] at h
    obtain ⟨hsf, hdelay⟩ := h
    have hform : sf = max (1 / 2) (min 2 ((avgUploadRate * cfg.adaptiveThresholdFactor) /
        (if uploadRate = 0 then 1 else uploadRate))) := by
      rw [← hsf]
      unfold severityFactor jsOr
      rw [hmin, hmax]
    refine ⟨⟨?_, ?_⟩, hform, ?_, ?_⟩
    · rw [hform]
      exact le_max_left _ _
    · rw [hform]
      exact max_le (by norm_num) (min_le_left _ _)
    · rw [← hdelay, ← hsf]
    · intro s hs
      unfold resumeIfPaused
      rw [if_neg hs]
  · rw [if_neg hc] at h
    exact absurd h (by simp)

/-- Witness for C7 (amended): the counterexample's pause instance — factor
`6/5` within bounds, delay `2400 = round(2000 * 6/5)`, resume guarded by
Paused. -/
theorem c7_adaptive_backpressure_witness :
    ((1 : ℚ) / 2 ≤ 6 / 5 ∧ (6 / 5 : ℚ) ≤ 2) ∧
    (6 / 5 : ℚ) = max (1 / 2) (min 2 (((6 / 7) * (7 / 10)) /
        (if (1 / 2 : ℚ) = 0 then 1 else 1 / 2))) ∧
    (2400 : ℤ) = jsRound (2000 * (6 / 5)) ∧
    (∀ s : StreamState, s.state ≠ .paused → resumeIfPaused s = (s, false)) :=
  c7_adaptive_backpressure defaultBpConfig rfl rfl 104857601 (1 / 2) (6 / 7) (6 / 5) 2400
    (by norm_num [adaptiveDecision, severityFactor, jsOr, jsRound, defaultBpConfig,
      max_def, min_def])

/-- C8: with stall detection enabled and the default threshold of 3, a
tracker that sees no byte progress across three consecutive ticks fires no
stall on the first two ticks and fires the stall callback on the third,
with `stallSeconds = 3 * progressInterval / 1000`; a subsequent tick that
observes byte progress resets the stall counter to 0 (and fires no
stall). -/
theorem c8_stall_detection (t : Tracker)
    (hen : t.stallDetectionEnabled = true) (hth : t.stallThreshold = 3)
    (hc : t.stallCounter = 0) (heq : t.bytesUploaded = t.lastBytesUploaded)
    (b2 : Nat) (hb2 : b2 ≠ t.bytesUploaded) :
    t.tick.2 = none ∧
    t.tick.1.tick.2 = none ∧
    t.tick.1.tick.1.tick.2 =
      some { stallTime := 3 * t.progressInterval / 1000,
             bytesUploaded := t.bytesUploaded, totalBytes := t.totalBytes } ∧
    ((t.tick.1.tick.1.tick.1.update b2).tick.1.stallCounter = 0 ∧
      (t.tick.1.tick.1.tick.1.update b2).tick.2 = none) := by
  obtain ⟨bu, lbu, sc, sth, sde, pi, tb⟩ := t
  simp only at hen hth hc heq hb2
  subst hen
  subst hth
  subst hc
  subst heq
  norm_num [Tracker.tick, Tracker.update, hb2]

/-- Witness for C8: a fresh tracker over a 100-byte file with 30s ticks
stalls on the third tick with 90 stall-seconds and resets on progress. -/
theorem c8_stall_detection_witness :
    (Tracker.mk0 (some 100) 30000 3).tick.2 = none ∧
    (Tracker.mk0 (some 100) 30000 3).tick.1.tick.2 = none ∧
    (Tracker.mk0 (some 100) 30000 3).tick.1.tick.1.tick.2 =
      some { stallTime := 3 * 30000 / 1000, bytesUploaded := 0, totalBytes := 100 } ∧
    (((Tracker.mk0 (some 100) 30000 3).tick.1.tick.1.tick.1.update 5).tick.1.stallCounter = 0 ∧
      ((Tracker.mk0 (some 100) 30000 3).tick.1.tick.1.tick.1.update 5).tick.2 = none) :=
  c8_stall_detection (Tracker.mk0 (some 100) 30000 3) rfl rfl rfl rfl 5 (by decide)

/-- C9 fails on the code: for a 0-byte file whose size lookup succeeds,
`totalBytes` is `0`, which is falsy, so the percentage computation
(progressTracker.js lines 76–78) reports `'unknown'`, not `100`. -/
theorem c9_zero_byte_percentage_counterexample :
    (Tracker.mk0 (some 0) 30000 3).percentage = Percentage.unknownPct ∧
    (Tracker.mk0 (some 0) 30000 3).percentage ≠ Percentage.pct 100 := by
  decide

/-- C9 amended: for a 0-byte file whose size lookup succeeds the reported
percentage is `'unknown'` (the code cannot distinguish a known size of 0
from a failed lookup), `bytesUploaded` is 0, and no stall notification
fires while fewer than `stallThreshold` (3) intervals have elapsed. -/
theorem c9_zero_byte_upload :
    (Tracker.mk0 (some 0) 30000 3).percentage = Percentage.unknownPct ∧
    (Tracker.mk0 (some 0) 30000 3).bytesUploaded = 0 ∧
    (Tracker.mk0 (some 0) 30000 3).tick.2 = none ∧
    (Tracker.mk0 (some 0) 30000 3).tick.1.tick.2 = none := by
  decide

/-- C10: once `handleTermination` has set the shutdown flag, every
`registerUpload` call returns `false`, leaves both the flag and the
active-uploads map unchanged, and synchronously invokes `abort` on the
controller it was given; no later `registerUpload` or `unregisterUpload`
clears the flag. -/
theorem c10_register_after_shutdown :
    (∀ r : Registry, (handleTermination r).1.isShuttingDown = true) ∧
    (∀ (s : Registry) (uploadId now : String) (c : Controller),
        s.isShuttingDown = true → c.hasAbortFn = true →
        registerUpload s uploadId c now =
          (s, false, { c with abortCalls := c.abortCalls + 1 })) ∧
    (∀ (s : Registry) (uploadId now : String) (c : Controller),
        (registerUpload s uploadId c now).1.isShuttingDown = s.isShuttingDown) ∧
    (∀ (s : Registry) (uploadId : String),
        (unregisterUpload s uploadId).1.isShuttingDown = s.isShuttingDown) := by
  refine ⟨?_, ?_, ?_, ?_⟩
  · intro r
    unfold handleTermination
    split
    · next h => exact h
    · rfl
  · intro s uploadId now c h hc
    unfold registerUpload
    rw [if_pos h, if_pos hc]
  · intro s uploadId now c
    unfold registerUpload
    split <;> rfl
  · intro s uploadId
    unfold unregisterUpload
    split <;> rfl

/-- Witness for C10: a shut-down registry rejects a registration, aborts
the given controller, and the flag survives register/unregister. -/
theorem c10_register_after_shutdown_witness :
    (handleTermination (Registry.mk [("u1", Controller.mk true 0)] false)).1.isShuttingDown =
      true ∧
    registerUpload (Registry.mk [] true) "u2" (Controller.mk true 0) "t0" =
      (Registry.mk [] true, false, Controller.mk true 1) ∧
    (registerUpload (Registry.mk [] true) "u2" (Controller.mk true 0) "t0").1.isShuttingDown =
      (Registry.mk [] true).isShuttingDown ∧
    (unregisterUpload (Registry.mk [] true) "u2").1.isShuttingDown =
      (Registry.mk [] true).isShuttingDown :=
  ⟨c10_register_after_shutdown.1 _,
   c10_register_after_shutdown.2.1 _ "u2" "t0" _ rfl rfl,
   c10_register_after_shutdown.2.2.1 _ "u2" "t0" _,
   c10_register_after_shutdown.2.2.2 _ "u2"⟩

end VenaEtl
